import Mathlib

/-!
Shallow embedding of `ccat.py` (welbornprod/ccat, v0.4.0), covering the
ANSI color-code subsystem (`ColorCodes`), the configuration merge pipeline
(`load_config` / `parse_printer_config` / `save_config`), and the file
printing loop (`print_files` / `handle_stdin` / the line-number formatters).
Each definition is annotated with the source function and lines it embeds.
-/

namespace Ccat

/-- Python truthiness of an optional string argument: `None` and the empty
string are falsy, any other string is truthy. -/
def truthyS : Option String → Bool
  | none => false
  | some s => !s.isEmpty

/-- Python `str.lower()`, modelled character by character (the names used
by `ccat.py` are ASCII, where this agrees with Python). -/
def pyLower (s : String) : String := String.mk (s.data.map Char.toLower)

/-- Python `str.strip()` with no argument: drop leading and trailing
whitespace, modelled character by character. -/
def pyStrip (s : String) : String :=
  String.mk (((s.data.dropWhile Char.isWhitespace).reverse.dropWhile Char.isWhitespace).reverse)

/-- Python `str.join`: `sep.join(xs)` (`''.join` / `';'.join` in `ccat.py`). -/
def pyJoin (sep : String) : List String → String
  | [] => ""
  | x :: xs => xs.foldl (fun acc y => acc ++ sep ++ y) x

/-- Python `str(i).zfill(width)` for the non-negative strings used by
`get_line_formatter` and `pipe_file_linenos`: pad on the left with `'0'`
up to `width` characters. -/
def zfill (s : String) (width : Nat) : String :=
  if width ≤ s.length then s else String.mk (List.replicate (width - s.length) '0') ++ s

/-! ## ColorCodes (ccat.py lines 655-818) -/

/-- Name/number table for the eight base colors, `ColorCodes.__init__`
(lines 666-676). -/
def namemap : List (String × Nat) :=
  [("black", 0), ("red", 1), ("green", 2), ("yellow", 3),
   ("blue", 4), ("magenta", 5), ("cyan", 6), ("white", 7)]

/-- The `self.codes['fore']` dictionary: base colors at 30+n, light variants
at 90+n, and `reset` at 39 (lines 679-687). -/
def foreCodes : List (String × String) :=
  namemap.map (fun p => (p.1, toString (30 + p.2))) ++
  namemap.map (fun p => ("light" ++ p.1, toString (90 + p.2))) ++
  [("reset", "39")]

/-- The `self.codes['back']` dictionary: base colors at 40+n, light variants
at 100+n, and `reset` at 49 (lines 679-688). -/
def backCodes : List (String × String) :=
  namemap.map (fun p => (p.1, toString (40 + p.2))) ++
  namemap.map (fun p => ("light" ++ p.1, toString (100 + p.2))) ++
  [("reset", "49")]

/-- The `stylemap` tuple of code/alias-list pairs (lines 691-700). -/
def stylemap : List (String × List String) :=
  [("0", ["r", "reset", "reset_all"]),
   ("1", ["b", "bright", "bold"]),
   ("2", ["d", "dim"]),
   ("3", ["i", "italic"]),
   ("4", ["u", "underline", "underlined"]),
   ("5", ["f", "flash"]),
   ("7", ["h", "highlight", "hilight", "hilite", "reverse"]),
   ("22", ["n", "normal", "none"])]

/-- The `self.codes['style']` dictionary: every alias maps to its numeric
code (lines 702-704). -/
def styleCodes : List (String × String) :=
  stylemap.flatMap (fun p => p.2.map (fun a => (a, p.1)))

/-- The code format string `self.codeformat = '\033[{}m'` (line 707). -/
def codeformat (s : String) : String := "\x1b[" ++ s ++ "m"

/-- The universal closing sequence `self.closing = '\033[m'` (line 709). -/
def closing : String := "\x1b[m"

/-- Extended foreground format `self.extforeformat = '\033[38;5;{}m'`
(line 711). -/
def extforeformat (s : String) : String := "\x1b[38;5;" ++ s ++ "m"

/-- Extended background format `self.extbackformat = '\033[48;5;{}m'`
(line 713). -/
def extbackformat (s : String) : String := "\x1b[48;5;" ++ s ++ "m"

/-- The per-slot normalization in `ColorCodes.color_code` (line 726):
`userstyles[stype].lower() if userstyles[stype] else None`. -/
def normName : Option String → Option String
  | none => none
  | some s => if s.isEmpty then none else some (pyLower s)

/-- Lookup of one slot's code in `ColorCodes.color_code` (lines 726-731):
normalize the name, fetch it from the given code dictionary and keep it
only when truthy (`if code: codes.append(code)`). -/
def pickCode (table : List (String × String)) (o : Option String) : Option String :=
  match normName o with
  | none => none
  | some s =>
    match table.lookup s with
    | some c => if c.isEmpty then none else some c
    | none => none

/-- The list `codes` built by `ColorCodes.color_code` (lines 723-731). The
`userstyles` dict is iterated in insertion order: `style`, `back`, `fore`,
so reset/style codes come first. -/
def codeList (fore back style : Option String) : List String :=
  (pickCode styleCodes style).toList ++
  (pickCode backCodes back).toList ++
  (pickCode foreCodes fore).toList

/-- `ColorCodes.color_code` (lines 719-733): the codes joined with `';'`
inside a single CSI sequence. -/
def color_code (fore back style : Option String) : String :=
  codeformat (pyJoin ";" (codeList fore back style))

/-- `ColorCodes.colorize` (lines 756-765): `text or ''` bracketed by the
computed code and the closing sequence. -/
def colorize (text fore back style : Option String) : String :=
  color_code fore back style ++ (text.getD "") ++ closing

/-- `ColorCodes.colorword` (lines 767-781): `colorize` followed by a
`reset_all` style code and another closing sequence. This is the `color`
alias used throughout the program (line 818). -/
def colorword (text fore back style : Option String) : String :=
  colorize text fore back style ++ color_code none none (some "reset_all") ++ closing

/-- Argument of `ColorCodes.make_256color`: `num i` models any Python value
accepted by `int()` with integer value `i`; `nonNum r` (with its display
text `r`) models a value on which `int()` raises `TypeError`/`ValueError`. -/
inductive ColorVal
  | num (i : Int)
  | nonNum (r : String)
deriving DecidableEq

/-- Display text of the value, as interpolated into error messages. -/
def ColorVal.show : ColorVal → String
  | .num i => toString i
  | .nonNum r => r

/-- Result of Python `int(val)` on a `ColorVal`. -/
def ColorVal.toInt : ColorVal → Option Int
  | .num i => some i
  | .nonNum _ => none

/-- `ColorCodes.make_256error` (lines 806-814): build the
`Invalid256Color` message. -/
def make_256error (colortype : String) (val : ColorVal) : String :=
  "Invalid number for " ++ colortype ++ ": " ++ val.show ++ " Must be in range 0-255"

/-- `ColorCodes.make_256color` (lines 783-804): validate the value with
`int()` and the 0-255 range, then emit the extended fore/back escape;
errors are the raised `Invalid256Color` messages. -/
def make_256color (colortype : String) (val : ColorVal) : Except String String :=
  match val.toInt with
  | none => .error (make_256error colortype val)
  | some ival =>
    if ival < 0 || ival > 255 then .error (make_256error colortype val)
    else if colortype = "fore" then .ok (extforeformat (toString ival))
    else if colortype = "back" then .ok (extbackformat (toString ival))
    else .error ("Invalid colortype: " ++ colortype)

/-- `ColorCodes.color256` (lines 735-754): optional style code (looked up
without lowering, silently dropped when unknown), then extended back and
fore codes (each may raise), then the text, the raw `reset_all` code
(`'0'`, unwrapped — exactly as the source appends it) and the closing. -/
def color256 (text : Option String) (fore back : Option ColorVal) (style : Option String) :
    Except String String := do
  let t := text.getD ""
  let sCodes : List String :=
    match style with
    | none => []
    | some s =>
      match styleCodes.lookup s with
      | some c => if c.isEmpty then [] else [codeformat c]
      | none => []
  let bCodes : List String ←
    match back with
    | none => pure []
    | some v => do
      let r ← make_256color "back" v
      pure [r]
  let fCodes : List String ←
    match fore with
    | none => pure []
    | some v => do
      let r ← make_256color "fore" v
      pure [r]
  pure (pyJoin "" (sCodes ++ bCodes ++ fCodes ++ [t, "0", closing]))

/-! ## Configuration merge (ccat.py lines 174-290, 519-544) -/

/-- Command-line values of the four persistable options, as produced by the
argument parser and key-stripped at line 178 (`--style` → `style`, ...).
String options are `None` or a string; `--linenos` is a boolean flag. -/
structure CliOpts where
  background : Option String
  format : Option String
  linenos : Bool
  style : Option String

/-- Values of the whitelisted `CONFIGOPTS` keys found in the persisted
`ccat.json`; `none` means the key is absent from the file. -/
structure Persisted where
  background : Option String
  format : Option String
  linenos : Option Bool
  style : Option String

/-- One step of the merge loop in `load_config` (lines 195-199) for a
string-valued key: a truthy persisted value replaces a falsy command-line
value (`if v and not merged[k]: merged[k] = v`). -/
def mergeVal (cliv persv : Option String) : Option String :=
  match persv with
  | none => cliv
  | some v => if !v.isEmpty && !truthyS cliv then some v else cliv

/-- The same merge step for the boolean `linenos` key. -/
def mergeBool (cliv : Bool) (persv : Option Bool) : Bool :=
  match persv with
  | none => cliv
  | some v => if v && !cliv then v else cliv

/-- `load_config` (lines 174-206): when the config file is missing, fails to
read or fails to parse (`pers = none`) the command-line dict is returned
unchanged; otherwise every whitelisted key is merged. -/
def load_config (cli : CliOpts) (pers : Option Persisted) : CliOpts :=
  match pers with
  | none => cli
  | some p =>
    { background := mergeVal cli.background p.background
      format := mergeVal cli.format p.format
      linenos := mergeBool cli.linenos p.linenos
      style := mergeVal cli.style p.style }

/-- Python `x or default` on an optional string option. -/
def pyOr (v : Option String) (d : String) : String :=
  match v with
  | none => d
  | some s => if s.isEmpty then d else s

/-- `stylename = config['style'] or 'monokai'` in `parse_printer_config`
(line 235). -/
def resolvedStyle (m : CliOpts) : String := pyOr m.style "monokai"

/-- `userformatter = config['format'] or 'terminal'` in
`parse_printer_config` (line 236). -/
def resolvedFormat (m : CliOpts) : String := pyOr m.format "terminal"

/-- Python `str(background)`: `None` renders as the string `"None"`. -/
def pyStr : Option String → String
  | none => "None"
  | some s => s

/-- The `bgstyles` alias dictionary in `try_formatter` (lines 582-588). -/
def bgstyles : List (String × String) :=
  [("l", "light"), ("light", "light"), ("d", "dark"), ("dark", "dark"), ("none", "dark")]

/-- Background normalization in `try_formatter` (line 589):
`bgstyles.get(str(background).lower(), bgstyles['none'])`. -/
def resolve_bgstyle (background : Option String) : String :=
  match bgstyles.lookup (pyLower (pyStr background)) with
  | some v => v
  | none => (bgstyles.lookup "none").getD ""

/-- The `nocolors` flag after `parse_printer_config` lines 259-262: when
stdout is not a tty and the formatter does not support piped output
(`formatted_pipe`, i.e. html), `nocolors` is set to `not --colors`;
otherwise the `--nocolors` command-line flag is kept. -/
def nocolors_effective (stdout_tty colorsFlag nocolorsFlag ishtml : Bool) : Bool :=
  if !(stdout_tty || ishtml) then !colorsFlag else nocolorsFlag

/-- `save_config` (lines 519-544): the config is filtered to truthy
whitelisted values; an empty result skips the write and returns `False`,
otherwise the file is written (the write itself is modelled as
succeeding) and `True` is returned. -/
def save_config_m (background format style : Option String) (linenos : Bool) : Bool :=
  truthyS background || truthyS format || truthyS style || linenos

/-- The exit-code computation of `main` (lines 92-95): with `--nosave` the
exit code reflects `print_files` alone, otherwise it is 0 only when both
`print_files` and `save_config` returned `True`. -/
def main_exit_m (nosave printOk saveOk : Bool) : Nat :=
  if nosave then (if printOk then 0 else 1)
  else (if printOk && saveOk then 0 else 1)

/-! ## File dispatch and the printing loop (ccat.py lines 98-171, 293-335, 401-427) -/

/-- `filename_is_stdin` (lines 98-103): `(not s) or (s == '-')`. -/
def filename_is_stdin : Option String → Bool
  | none => true
  | some s => s.isEmpty || s == "-"

/-- The `filename.strip()` step of `print_files` (lines 415-419); the
`AttributeError` branch leaves `None` unchanged. -/
def stripName : Option String → Option String
  | none => none
  | some s => some (pyStrip s)

/-- Where one FILE argument is routed by `print_files` (lines 420-425). -/
inductive Target
  | stdin
  | file (name : String)
deriving DecidableEq

/-- The dispatch decision of `print_files` for one FILE argument: strip it,
then route stdin-like names to `handle_stdin` and the rest to
`handle_file`. -/
def dispatch_target (f : Option String) : Target :=
  if filename_is_stdin (stripName f) then Target.stdin
  else Target.file ((stripName f).getD "")

/-- `handle_stdin` (lines 147-166) restricted to its observable effects:
given the `handle_stdin.handled` flag, return the printed result, the new
flag, and how many times stdin was read. A repeat request returns `False`
without reading; a first request reads stdin once and returns the outcome
`stdinOk` of printing it. -/
def handle_stdin_m (stdinOk handled : Bool) : Bool × Bool × Nat :=
  if handled then (false, true, 0) else (stdinOk, true, 1)

/-- The loop of `print_files` (lines 413-427): `lexOk` models `set_lexer`
(an invalid `--lexer` name aborts the whole run, line 420-421), `fileOk`
models `handle_file`'s success on a named file, `stdinOk` models the
success of printing stdin. Returns `(all(results), handled-flag, number
of stdin reads)`. -/
def print_files_go (lexOk : Option String → Bool) (stdinOk : Bool)
    (fileOk : String → Bool) : List (Option String) → Bool → Bool × Bool × Nat
  | [], h => (true, h, 0)
  | f :: rest, h =>
    if lexOk (stripName f) then
      match dispatch_target f with
      | Target.stdin =>
        let r := handle_stdin_m stdinOk h
        let rest' := print_files_go lexOk stdinOk fileOk rest r.2.1
        (r.1 && rest'.1, rest'.2.1, r.2.2 + rest'.2.2)
      | Target.file n =>
        let rest' := print_files_go lexOk stdinOk fileOk rest h
        (fileOk n && rest'.1, rest'.2.1, rest'.2.2)
    else (false, h, 0)

/-! ## Line numbering and the raw piping path (ccat.py lines 106-125, 293-335, 348-398) -/

/-- The line formatter returned by `get_line_formatter` with `linenos=True`
(lines 113-120): the 1-based index is zero-filled to the width of
`maxnum` and colorized cyan, then joined to the line with `': '`. -/
def get_line_formatter_linenos (maxnum i : Nat) (l : String) : String :=
  colorword (some (zfill (toString i) (toString maxnum).length)) (some "cyan") none none
    ++ (": " ++ l)

/-- The numbered lines printed by `print_file` (lines 392-396): line `i`
(0-based in `enumerate`) is formatted with index `i + 1`. -/
def print_file_numbered (hilitelines : List String) : List String :=
  hilitelines.enum.map (fun p => get_line_formatter_linenos hilitelines.length (p.1 + 1) p.2)

/-- The lines printed by `pipe_file_linenos` (lines 307-322): the width is
the digit count of `len(lines)` and the printed index is the raw
`enumerate` index `i`, zero-filled. -/
def pipe_file_linenos_lines (lines : List String) : List String :=
  lines.enum.map (fun p => zfill (toString p.1) (toString lines.length).length ++ (": " ++ p.2))

/-- Total stdout text emitted by `pipe_file_linenos` (each line is printed
with `end=''`). -/
def pipe_file_linenos_out (lines : List String) : String :=
  String.join (pipe_file_linenos_lines lines)

/-- `pipe_file_simple` (lines 325-335): the raw bytes of the file are
written to stdout unchanged. -/
def pipe_file_simple_out (content : String) : String := content

/-- The `formatfilename` label used when colors are disabled
(`parse_printer_config` line 275): `'\n{}:'.format`. -/
def formatfilename_nocolors (s : String) : String := "\n" ++ (s ++ ":")

/-- Whether a string contains the ANSI escape byte `'\x1b'`. -/
def hasEsc (s : String) : Bool := s.data.any (fun c => c == '\x1b')

/-! ## Helper lemmas -/

theorem mergeVal_pyOr (a b : Option String) (d : String) :
    pyOr (mergeVal a b) d
      = if truthyS a then a.getD "" else if truthyS b then b.getD "" else d := by
  cases a <;> cases b <;>
    simp only [mergeVal, pyOr, truthyS, Option.getD] <;>
    split_ifs <;> simp_all [pyOr]

theorem mergeBool_getD (a : Bool) (b : Option Bool) :
    mergeBool a b = if a then true else b.getD false := by
  cases a <;> cases b <;> simp [mergeBool]

theorem falsy_bgstyle (x : Option String) (hx : truthyS x = false) :
    resolve_bgstyle x = "dark" := by
  cases x with
  | none => decide
  | some s =>
    have hs : s.isEmpty = true := by simpa [truthyS] using hx
    rw [String.isEmpty_iff] at hs; subst hs; decide

theorem mergeVal_bgstyle (a b : Option String) :
    resolve_bgstyle (mergeVal a b)
      = if truthyS a then resolve_bgstyle a
        else if truthyS b then resolve_bgstyle b else "dark" := by
  by_cases ha : truthyS a
  · have hkeep : mergeVal a b = a := by
      cases b with
      | none => rfl
      | some v => simp [mergeVal, ha]
    rw [hkeep, if_pos ha]
  · have ha' : truthyS a = false := by simpa using ha
    by_cases hb : truthyS b
    · cases b with
      | none => simp [truthyS] at hb
      | some v =>
        have hv : v.isEmpty = false := by
          cases hvv : v.isEmpty
          · rfl
          · simp [truthyS, hvv] at hb
        have htake : mergeVal a (some v) = some v := by
          simp [mergeVal, hv, ha']
        rw [htake]
        simp [ha', hb]
    · have hb' : truthyS b = false := by simpa using hb
      have hkeep : mergeVal a b = a := by
        cases b with
        | none => rfl
        | some v =>
          have hv : v.isEmpty = true := by simpa [truthyS] using hb'
          simp [mergeVal, hv]
      rw [hkeep, falsy_bgstyle a ha']
      simp [ha', hb']

/-! ## Claim theorems -/

/-- C1: configuration resolution obeys command-line flag over persisted file
value over built-in default for every whitelisted key (`background`,
`format`, `linenos`, `style`): a truthy command-line value wins; otherwise
a truthy value from an existing, parsing config file (`pers = some p`) is
used; otherwise the built-in default applies (`monokai` for style,
`terminal` for format, `false` for linenos, `dark` for the background once
normalized by `try_formatter`). -/
theorem config_precedence (cli : CliOpts) (pers : Option Persisted) :
    (resolvedStyle (load_config cli pers)
      = if truthyS cli.style then cli.style.getD ""
        else
          match pers with
          | some p => if truthyS p.style then p.style.getD "" else "monokai"
          | none => "monokai")
  ∧ (resolvedFormat (load_config cli pers)
      = if truthyS cli.format then cli.format.getD ""
        else
          match pers with
          | some p => if truthyS p.format then p.format.getD "" else "terminal"
          | none => "terminal")
  ∧ (resolve_bgstyle (load_config cli pers).background
      = if truthyS cli.background then resolve_bgstyle cli.background
        else
          match pers with
          | some p => if truthyS p.background then resolve_bgstyle p.background else "dark"
          | none => "dark")
  ∧ ((load_config cli pers).linenos
      = if cli.linenos then true
        else
          match pers with
          | some p => p.linenos.getD false
          | none => false) := by
  cases pers with
  | none =>
    refine ⟨?_, ?_, ?_, ?_⟩
    · show pyOr cli.style "monokai" = _
      cases h : cli.style with
      | none => simp [pyOr, truthyS]
      | some s =>
        by_cases hs : s.isEmpty <;> simp [pyOr, truthyS, hs]
    · show pyOr cli.format "terminal" = _
      cases h : cli.format with
      | none => simp [pyOr, truthyS]
      | some s =>
        by_cases hs : s.isEmpty <;> simp [pyOr, truthyS, hs]
    · by_cases hb : truthyS cli.background
      · simp [load_config, hb]
      · have hb' : truthyS cli.background = false := by simpa using hb
        simp [load_config, hb', falsy_bgstyle cli.background hb']
    · cases h : cli.linenos <;> simp [load_config, h]
  | some p =>
    refine ⟨?_, ?_, ?_, ?_⟩
    · show pyOr (mergeVal cli.style p.style) "monokai" = _
      rw [mergeVal_pyOr]
    · show pyOr (mergeVal cli.format p.format) "terminal" = _
      rw [mergeVal_pyOr]
    · show resolve_bgstyle (mergeVal cli.background p.background) = _
      rw [mergeVal_bgstyle]
    · show mergeBool cli.linenos p.linenos = _
      rw [mergeBool_getD]

/-- C9: `try_formatter` never fails on the background argument: every
background value — `None`, abbreviations, or arbitrary strings — is
normalized through the `bgstyles` table; it yields `light` exactly on the
aliases `l`/`light` (case-insensitively) and `dark` for everything else. -/
theorem background_always_normalized (background : Option String) :
    (resolve_bgstyle background = "light"
        ↔ pyLower (pyStr background) ∈ ["l", "light"])
  ∧ (pyLower (pyStr background) ∉ ["l", "light"]
        → resolve_bgstyle background = "dark") := by
  unfold resolve_bgstyle
  generalize pyLower (pyStr background) = k
  by_cases h1 : k = "l"
  · subst h1
    exact ⟨⟨fun _ => by simp, fun _ => by decide⟩, fun h => absurd (by simp) h⟩
  by_cases h2 : k = "light"
  · subst h2
    exact ⟨⟨fun _ => by simp, fun _ => by decide⟩, fun h => absurd (by simp) h⟩
  by_cases h3 : k = "d"
  · subst h3
    refine ⟨⟨fun h => absurd h (by decide), fun h => ?_⟩, fun _ => by decide⟩
    simp at h
  by_cases h4 : k = "dark"
  · subst h4
    refine ⟨⟨fun h => absurd h (by decide), fun h => ?_⟩, fun _ => by decide⟩
    simp at h
  by_cases h5 : k = "none"
  · subst h5
    refine ⟨⟨fun h => absurd h (by decide), fun h => ?_⟩, fun _ => by decide⟩
    simp at h
  have e1 : (k == "l") = false := by simp [h1]
  have e2 : (k == "light") = false := by simp [h2]
  have e3 : (k == "d") = false := by simp [h3]
  have e4 : (k == "dark") = false := by simp [h4]
  have e5 : (k == "none") = false := by simp [h5]
  have hlk : bgstyles.lookup k = none := by
    simp [bgstyles, List.lookup, e1, e2, e3, e4, e5]
  rw [hlk]
  refine ⟨⟨fun h => absurd h (by decide), fun h => ?_⟩, fun _ => by decide⟩
  simp [h1, h2] at h

/-- Witness for C9 at a concrete unrecognized background value. -/
theorem background_always_normalized_witness :
    resolve_bgstyle (some "weird") = "dark" :=
  (background_always_normalized (some "weird")).2 (by decide)

/-- C10: every FILE argument is stripped of surrounding whitespace before
dispatch; a stripped name that is empty, `None`, or `-` is routed to
stdin, and any other name is dispatched as a file under its stripped
spelling. -/
theorem filename_dispatch (s : String) :
    (∀ n, dispatch_target (some s) = Target.file n → n = pyStrip s)
  ∧ (dispatch_target (some s) = Target.stdin
        ↔ ((pyStrip s).isEmpty = true ∨ pyStrip s = "-"))
  ∧ dispatch_target none = Target.stdin := by
  refine ⟨?_, ?_, rfl⟩
  · intro n h
    unfold dispatch_target stripName filename_is_stdin at h
    by_cases hc : ((pyStrip s).isEmpty || pyStrip s == "-") = true
    · simp [hc] at h
    · simp [hc] at h
      exact h.symm
  · unfold dispatch_target stripName filename_is_stdin
    by_cases hc : ((pyStrip s).isEmpty || pyStrip s == "-") = true
    · simp [hc]
      simpa using hc
    · simp [hc]
      simpa using hc

/-- Witness for C10: a whitespace-only argument and a padded dash both read
stdin. -/
theorem filename_dispatch_witness :
    dispatch_target (some "   ") = Target.stdin
  ∧ dispatch_target (some " - ") = Target.stdin :=
  ⟨(filename_dispatch "   ").2.1.mpr (Or.inl (by decide)),
   (filename_dispatch " - ").2.1.mpr (Or.inr (by decide))⟩

theorem print_files_go_reads_bound (lexOk : Option String → Bool) (stdinOk : Bool)
    (fileOk : String → Bool) :
    ∀ (files : List (Option String)) (h : Bool),
      (print_files_go lexOk stdinOk fileOk files h).2.2 ≤ (if h then 0 else 1) := by
  intro files
  induction files with
  | nil =>
    intro h
    simp only [print_files_go]
    cases h <;> simp
  | cons f rest ih =>
    intro h
    unfold print_files_go
    by_cases hl : lexOk (stripName f)
    · simp only [hl, if_true]
      cases hd : dispatch_target f with
      | stdin =>
        cases h with
        | true =>
          have hr := ih true
          simp only [if_true] at hr
          simp [handle_stdin_m]
          omega
        | false =>
          have hr := ih true
          simp only [if_true] at hr
          simp [handle_stdin_m]
          omega
      | file n =>
        have hr := ih h
        simpa using hr
    · simp only [hl, if_false]
      cases h <;> simp

/-- C6 (amended): stdin is read at most once per run — starting from the
unhandled state, the printing loop performs at most one stdin read no
matter how often stdin is named among the inputs — and a repeat request
is skipped without reading; however the skipped request returns `False`
(recorded as a failed item) rather than being a pure no-op. -/
theorem stdin_read_at_most_once (lexOk : Option String → Bool) (stdinOk : Bool)
    (fileOk : String → Bool) (files : List (Option String)) :
    (print_files_go lexOk stdinOk fileOk files false).2.2 ≤ 1
  ∧ handle_stdin_m stdinOk true = (false, true, 0) := by
  refine ⟨?_, rfl⟩
  simpa using print_files_go_reads_bound lexOk stdinOk fileOk files false

/-- Counterexample to C6 as stated: with stdin requested twice (for example
`ccat - -`) and every actual read succeeding, the run as a whole reports
failure — the second, skipped request is treated as an error of the run —
while the same invocation with a single stdin request succeeds. -/
theorem stdin_repeat_counted_as_error :
    (print_files_go (fun _ => true) true (fun _ => true) [some "-", some "-"] false).1 = false
  ∧ (print_files_go (fun _ => true) true (fun _ => true) [some "-"] false).1 = true := by
  exact ⟨by decide, by decide⟩

/-- C7: evaluation of both line-numbering paths on a two-line input. The
highlighted path (`print_file` with `get_line_formatter`) numbers lines
1-based, but the no-color piping path (`pipe_file_linenos`) prefixes the
raw 0-based `enumerate` index: its first line reads `0: `, not `1: `. -/
theorem pipe_linenos_zero_based :
    pipe_file_linenos_lines ["alpha\n", "beta\n"] = ["0: alpha\n", "1: beta\n"]
  ∧ print_file_numbered ["alpha", "beta"]
      = ["\x1b[36m1\x1b[m\x1b[0m\x1b[m: alpha", "\x1b[36m2\x1b[m\x1b[0m\x1b[m: beta"] := by
  exact ⟨by decide, by decide⟩

/-- C8: evaluation of the exit-code pipeline at an input that refutes the
claim: a run over one readable file in which every item prints
successfully, but in which none of the four persistable options is truthy,
exits with code 1 (without `--nosave`, `main` requires `save_config` to
return `True`, and `save_config` returns `False` when the filtered config
is empty). -/
theorem successful_print_exits_one_without_saved_opts :
    (print_files_go (fun _ => true) true (fun _ => true) [some "file.txt"] false).1 = true
  ∧ save_config_m none none none false = false
  ∧ main_exit_m false
      ((print_files_go (fun _ => true) true (fun _ => true) [some "file.txt"] false).1)
      (save_config_m none none none false) = 1 := by
  exact ⟨by decide, by decide, by decide⟩

/-- C2: for the two color types used by `color256`, `make_256color` fails
exactly when the value is non-numeric or its integer value lies outside
0-255, succeeds on every integer in 0..255 with an escape sequence
encoding exactly that value, and `color256` propagates the validation
outcome. -/
theorem make_256color_validates (colortype : String) (v : ColorVal)
    (hct : colortype = "fore" ∨ colortype = "back") :
    ((make_256color colortype v).isOk = true
        ↔ ∃ i : Int, v = ColorVal.num i ∧ 0 ≤ i ∧ i ≤ 255)
  ∧ (∀ i : Int, v = ColorVal.num i → 0 ≤ i → i ≤ 255 →
      make_256color colortype v
        = .ok ((if colortype = "fore" then extforeformat else extbackformat) (toString i)))
  ∧ (color256 none (some v) none none).isOk = (make_256color "fore" v).isOk := by
  have hok : ∀ i : Int, 0 ≤ i → i ≤ 255 →
      make_256color colortype (ColorVal.num i)
        = .ok ((if colortype = "fore" then extforeformat else extbackformat) (toString i)) := by
    intro i h0 h255
    have hr : (i < 0 || i > 255) = false := by
      simp only [Bool.or_eq_false_iff, decide_eq_false_iff_not]
      constructor <;> omega
    rcases hct with rfl | rfl <;> simp [make_256color, ColorVal.toInt, hr]
  refine ⟨?_, fun i hi h0 h255 => by rw [hi]; exact hok i h0 h255, ?_⟩
  · cases v with
    | nonNum r =>
      simp [make_256color, ColorVal.toInt, Except.isOk, Except.toBool]
    | num i =>
      constructor
      · intro hOk
        by_cases h0 : 0 ≤ i
        · by_cases h255 : i ≤ 255
          · exact ⟨i, rfl, h0, h255⟩
          · exfalso
            have hr : (i < 0 || i > 255) = true := by simp; omega
            simp [make_256color, ColorVal.toInt, hr, Except.isOk, Except.toBool] at hOk
        · exfalso
          have hr : (i < 0 || i > 255) = true := by simp; omega
          simp [make_256color, ColorVal.toInt, hr, Except.isOk, Except.toBool] at hOk
      · rintro ⟨j, hj, h0, h255⟩
        injection hj with hj
        subst hj
        rw [hok i h0 h255]
        rfl
  · cases hm : make_256color "fore" v with
    | ok r => simp [color256, hm, Except.isOk, Except.toBool]
    | error e => simp [color256, hm, Except.isOk, Except.toBool]

/-- Witness for C2 at the boundary value 255 on the foreground type. -/
theorem make_256color_validates_witness :
    make_256color "fore" (ColorVal.num 255)
      = .ok ((if "fore" = "fore" then extforeformat else extbackformat)
          (toString (255 : Int))) :=
  (make_256color_validates "fore" (ColorVal.num 255) (Or.inl rfl)).2.1 255 rfl
    (by decide) (by decide)

/-- C3: for every text and every valid foreground/background/style name
combination, `colorword` returns the text bracketed by a single opening
CSI sequence and trailing closing sequences: it starts with the
control-sequence introducer, contains the text verbatim, and ends with
the universal closing sequence. -/
theorem colorword_wraps_text (t : String) (fore back style : Option String)
    (hf : fore = none ∨ (pickCode foreCodes fore).isSome = true)
    (hb : back = none ∨ (pickCode backCodes back).isSome = true)
    (hs : style = none ∨ (pickCode styleCodes style).isSome = true) :
    colorword (some t) fore back style
      = ("\x1b[" ++ (pyJoin ";" (codeList fore back style) ++ "m"))
        ++ (t ++ ("\x1b[m" ++ ("\x1b[0m" ++ "\x1b[m")))
  ∧ (∃ u, colorword (some t) fore back style = "\x1b[" ++ u)
  ∧ (∃ v, colorword (some t) fore back style = v ++ "\x1b[m") := by
  have hreset : color_code none none (some "reset_all") = "\x1b[0m" := by decide
  have key : colorword (some t) fore back style
      = ("\x1b[" ++ (pyJoin ";" (codeList fore back style) ++ "m"))
        ++ (t ++ ("\x1b[m" ++ ("\x1b[0m" ++ "\x1b[m"))) := by
    unfold colorword colorize closing
    rw [hreset]
    unfold color_code codeformat
    simp [String.append_assoc]
  refine ⟨key, ?_, ?_⟩
  · exact ⟨pyJoin ";" (codeList fore back style)
        ++ ("m" ++ (t ++ ("\x1b[m" ++ ("\x1b[0m" ++ "\x1b[m")))),
      by rw [key]; simp [String.append_assoc]⟩
  · exact ⟨"\x1b[" ++ (pyJoin ";" (codeList fore back style)
        ++ ("m" ++ (t ++ ("\x1b[m" ++ "\x1b[0m")))),
      by rw [key]; simp [String.append_assoc]⟩

/-- Witness for C3 at a concrete valid combination. -/
theorem colorword_wraps_text_witness :
    colorword (some "hi") (some "red") (some "blue") (some "bold")
      = ("\x1b[" ++ (pyJoin ";" (codeList (some "red") (some "blue") (some "bold")) ++ "m"))
        ++ ("hi" ++ ("\x1b[m" ++ ("\x1b[0m" ++ "\x1b[m"))) :=
  (colorword_wraps_text "hi" (some "red") (some "blue") (some "bold")
    (Or.inr (by decide)) (Or.inr (by decide)) (Or.inr (by decide))).1

/-- C4: when a style and a foreground or background color are both
requested, `color_code` emits one CSI sequence of semicolon-separated
numeric codes, with the style code placed before the color code(s). -/
theorem style_code_before_color_codes (fore back style : Option String) (sc bc fc : String)
    (hs : pickCode styleCodes style = some sc)
    (hb : pickCode backCodes back = some bc)
    (hf : pickCode foreCodes fore = some fc) :
    color_code fore back style = "\x1b[" ++ (sc ++ (";" ++ (bc ++ (";" ++ (fc ++ "m")))))
  ∧ color_code fore none style = "\x1b[" ++ (sc ++ (";" ++ (fc ++ "m")))
  ∧ color_code none back style = "\x1b[" ++ (sc ++ (";" ++ (bc ++ "m"))) := by
  have h1 : pickCode backCodes none = none := rfl
  have h2 : pickCode foreCodes none = none := rfl
  refine ⟨?_, ?_, ?_⟩ <;>
    · unfold color_code codeList codeformat
      rw [hs]
      first
        | rw [hb, hf]
        | rw [h1, hf]
        | rw [hb, h2]
      simp [pyJoin, String.append_assoc]

/-- Witness for C4 at a concrete style/color combination. -/
theorem style_code_before_color_codes_witness :
    color_code (some "red") (some "blue") (some "bold")
      = "\x1b[" ++ ("1" ++ (";" ++ ("44" ++ (";" ++ ("31" ++ "m"))))) :=
  (style_code_before_color_codes (some "red") (some "blue") (some "bold") "1" "44" "31"
    (by decide) (by decide) (by decide)).1

theorem snd_mem_of_mem_enumFrom {α : Type} :
    ∀ (l : List α) (k : Nat) (p : Nat × α), p ∈ l.enumFrom k → p.2 ∈ l := by
  intro l
  induction l with
  | nil => intro k p h; cases h
  | cons x xs ih =>
    intro k p h
    simp only [List.enumFrom, List.mem_cons] at h
    rcases h with h | h
    · rw [h]; exact List.mem_cons_self x xs
    · exact List.mem_cons_of_mem x (ih (k + 1) p h)

theorem hasEsc_append (a b : String) : hasEsc (a ++ b) = (hasEsc a || hasEsc b) := by
  simp [hasEsc]

theorem hasEsc_foldl (xs : List String) : ∀ acc : String,
    hasEsc (xs.foldl (fun r s => r ++ s) acc) = (hasEsc acc || xs.any hasEsc) := by
  induction xs with
  | nil => intro acc; simp
  | cons x xs ih =>
    intro acc
    simp only [List.foldl_cons, List.any_cons]
    rw [ih (acc ++ x), hasEsc_append, Bool.or_assoc]

theorem hasEsc_join (xs : List String) : hasEsc (String.join xs) = xs.any hasEsc := by
  have h := hasEsc_foldl xs ""
  have h0 : hasEsc "" = false := rfl
  rw [h0, Bool.false_or] at h
  exact h

theorem digitChar_lt_ten_not_esc (m : Nat) (hm : m < 10) :
    (Nat.digitChar m == '\x1b') = false := by
  interval_cases m <;> decide

theorem toDigitsCore_not_esc :
    ∀ (fuel n : Nat) (ds : List Char),
      (∀ c ∈ ds, (c == '\x1b') = false) →
      ∀ c ∈ Nat.toDigitsCore 10 fuel n ds, (c == '\x1b') = false := by
  intro fuel
  induction fuel with
  | zero => intro n ds hds c hc; exact hds c hc
  | succ fuel ih =>
    intro n ds hds c hc
    have hd : ((Nat.digitChar (n % 10)) == '\x1b') = false :=
      digitChar_lt_ten_not_esc _ (Nat.mod_lt _ (by decide))
    have hcons : ∀ c' ∈ (Nat.digitChar (n % 10)) :: ds, (c' == '\x1b') = false := by
      intro c' hc'
      rcases List.mem_cons.mp hc' with h | h
      · rw [h]; exact hd
      · exact hds c' h
    rw [Nat.toDigitsCore] at hc
    by_cases h0 : n / 10 = 0
    · simp only [h0, if_true] at hc
      exact hcons c hc
    · simp only [h0, if_false] at hc
      exact ih (n / 10) _ hcons c hc

theorem natRepr_not_esc (n : Nat) : hasEsc (toString n) = false := by
  show (Nat.toDigitsCore 10 (n + 1) n []).any (fun c => c == '\x1b') = false
  rw [List.any_eq_false]
  intro c hc
  have h := toDigitsCore_not_esc (n + 1) n [] (by intro c' hc'; cases hc') c hc
  simp [h]

theorem zfill_not_esc (s : String) (w : Nat) (h : hasEsc s = false) :
    hasEsc (zfill s w) = false := by
  unfold zfill
  split
  · exact h
  · rw [hasEsc_append]
    have hrep : hasEsc (String.mk (List.replicate (w - s.length) '0')) = false := by
      show (List.replicate (w - s.length) '0').any (fun c => c == '\x1b') = false
      rw [List.any_eq_false]
      intro c hc
      rw [List.eq_of_mem_replicate hc]
      decide
    rw [hrep, h]
    rfl

/-- Counterexample to C5 as stated: the wrap operation is never a no-op —
`colorword` brackets its input in escape sequences unconditionally, with
no dependence on whether stdout is a terminal. -/
theorem colorword_not_identity :
    colorword (some "x") (some "red") none none ≠ "x" := by decide

/-- C5 (amended): when stdout is not an interactive terminal, colors are
not forced, and the formatter is not html, the effective `nocolors` flag
is set, and the raw piping path taken in that case emits no ANSI escape
byte that was not already present in the input: `pipe_file_simple` copies
the content unchanged, and the numbered piping path and the no-color
file-name label add only digits, colons, padding and whitespace. Color is
kept out of piped output by routing around the colorizer, not by `wrap`
becoming a no-op. -/
theorem nocolors_pipe_no_escape (ncf : Bool) (content : String) (lines : List String)
    (nm : String) (hl : ∀ l ∈ lines, hasEsc l = false) (hn : hasEsc nm = false) :
    nocolors_effective false false ncf false = true
  ∧ pipe_file_simple_out content = content
  ∧ hasEsc (pipe_file_linenos_out lines) = false
  ∧ hasEsc (formatfilename_nocolors nm) = false := by
  refine ⟨rfl, rfl, ?_, ?_⟩
  · unfold pipe_file_linenos_out pipe_file_linenos_lines
    rw [hasEsc_join, List.any_eq_false]
    intro x hx
    rw [List.mem_map] at hx
    obtain ⟨p, hp, rfl⟩ := hx
    have hline : hasEsc p.2 = false :=
      hl p.2 (snd_mem_of_mem_enumFrom lines 0 p hp)
    have hnum : hasEsc (zfill (toString p.1) (toString lines.length).length) = false :=
      zfill_not_esc _ _ (natRepr_not_esc p.1)
    have hsep : hasEsc ": " = false := by decide
    show ¬ hasEsc (zfill (toString p.1) (toString lines.length).length ++ (": " ++ p.2)) = true
    rw [hasEsc_append, hasEsc_append, hline, hnum, hsep]
    decide
  · unfold formatfilename_nocolors
    have h1 : hasEsc "\n" = false := by decide
    have h2 : hasEsc ":" = false := by decide
    rw [hasEsc_append, hasEsc_append, h1, h2, hn]
    rfl

/-- Witness for C5 (amended) on a concrete escape-free input. -/
theorem nocolors_pipe_no_escape_witness :
    nocolors_effective false false false false = true
  ∧ pipe_file_simple_out "hello" = "hello"
  ∧ hasEsc (pipe_file_linenos_out ["a\n", "b\n"]) = false
  ∧ hasEsc (formatfilename_nocolors "f.txt") = false :=
  nocolors_pipe_no_escape false "hello" ["a\n", "b\n"] "f.txt" (by decide) (by decide)

end Ccat
